import Mathlib

/-!
Verification of `src/src/node_snapshotable.cc` (snapshot build / restore
subsystem). Each C++ function used by the claims is shallowly embedded as an
executable Lean function; external collaborators (V8 isolate, libuv loop,
bootstrap scripts) are represented as explicit inputs. Machine integers that
never overflow on the modelled paths are represented by `Nat`/`Int`.
-/

namespace NodeSnapshot

/-- Process-terminating failure modes of the snapshot subsystem. Each
constructor corresponds to one `abort()`, `ToLocalChecked()` crash, `CHECK*`
macro or `UNREACHABLE()` site in `node_snapshotable.cc`. -/
inductive FatalKind where
  /-- Site: `PrintCaughtException` followed by `abort()` (bootstrap-script failure). -/
  | bootstrapAbort
  /-- Site: `MaybeLocal::ToLocalChecked()` invoked on an empty result. -/
  | toLocalCheckedCrash
  /-- Site: `CHECK_EQ(exit_code, 0)` failed after `SpinEventLoop`. -/
  | checkEqExitCode
  /-- Site: `CHECK_EQ(index, NodeMainInstance::kNodeContextIndex)` failed. -/
  | checkEqContextIndex
  /-- Site: `CHECK(out->blob.CanBeRehashed())` failed. -/
  | checkRehash
  /-- Site: `CHECK(env->req_wrap_queue()->IsEmpty())` failed. -/
  | checkReqWrapQueue
  /-- Site: `CHECK(env->handle_wrap_queue()->IsEmpty())` failed. -/
  | checkHandleWrapQueue
  /-- Site: `UNREACHABLE()` hit (unregistered type tag / non-snapshotable binding). -/
  | unreachableCase
  /-- Site: `reinterpret_cast` of a null payload pointer with a nonzero size; the
  C++ would dereference invalid memory, which never happens for payloads the
  engine hands back, so it is outside the modelled domain. -/
  | invalidPayloadPointer
  deriving DecidableEq, Repr

/-- Diagnostic output events emitted on the paths of `SnapshotBuilder::Generate`. -/
inductive DiagEvent where
  /-- Event: `PrintCaughtException(isolate, context, bootstrapCatch)`. -/
  | caughtException
  /-- Event: `env->PrintAllBaseObjects()` plus the environment-pointer printf. -/
  | allBaseObjectsDump
  /-- Event: `PrintLibuvHandleInformation(env->event_loop(), stderr)`. -/
  | libuvHandleDump
  deriving DecidableEq, Repr

/-- Embeds `InternalFieldInfo` (declared in `node_snapshotable.h`): the header of a
serialized internal field — a type tag, the declared total length of the
serialized data, and the type-specific bytes that follow the header. -/
structure InternalFieldInfo where
  type : Nat
  length : Nat
  payload : List Nat
  deriving DecidableEq, Repr

/-- Embeds `v8::StartupData`: a pointer to serialized bytes plus their size. The
`data` pointer is modelled as the `InternalFieldInfo` it is reinterpreted to
(`none` models a null pointer); `raw_size` is the byte count. -/
structure StartupData where
  data : Option InternalFieldInfo
  raw_size : Nat
  deriving DecidableEq, Repr

/-- Modelled from the spec: one entry of the `SERIALIZABLE_OBJECT_TYPES` macro
list (the list lives in `node_snapshotable.h`, which is not part of the
sampled source). A registered embedder object type pairs its type tag with
its static `Deserialize` reconstruction function, here identified by a
numeric id. The dispatch structure over this list is taken from the `switch`
in the sampled source; only the concrete list is parametrised. -/
structure RegisteredType where
  tag : Nat
  deserializeFn : Nat
  deriving DecidableEq, Repr

/-- One entry of the restoring environment's deserialize-request queue, as
built by `env_ptr->EnqueueDeserializeRequest(NativeTypeName::Deserialize,
holder, index, info->Copy())`. -/
structure DeserializeRequest where
  cb : Nat
  holder : Nat
  index : Nat
  info : InternalFieldInfo
  deriving DecidableEq, Repr

/-- The `case` dispatch of the `switch (info->type)` generated by
`SERIALIZABLE_OBJECT_TYPES(V)`: the first registered type whose tag matches. -/
def lookupRegistered (registry : List RegisteredType) (tag : Nat) :
    Option RegisteredType :=
  registry.find? (fun r => r.tag == tag)

/-- State visible after one call of `DeserializeNodeInternalFields`: the
holder's internal-field slots (slot index to aligned pointer, `none` being
the null pointer), the environment's deserialize-request queue, and the list
of reconstruction functions invoked synchronously during the call. -/
structure DeserializeResult where
  slots : Nat → Option Nat
  queue : List DeserializeRequest
  syncInvocations : List Nat

/-- Embeds `DeserializeNodeInternalFields` (`node_snapshotable.cc:264-297`).
A zero-size payload nulls the slot and returns; otherwise the payload is
reinterpreted as an `InternalFieldInfo` and dispatched on its type tag:
a registered tag enqueues a deserialize request, an unregistered tag hits
`UNREACHABLE()`. -/
def DeserializeNodeInternalFields (registry : List RegisteredType)
    (holderId : Nat) (slots : Nat → Option Nat) (index : Nat)
    (payload : StartupData) (queue : List DeserializeRequest) :
    Except FatalKind DeserializeResult :=
  if payload.raw_size = 0 then
    .ok ⟨fun j => if j = index then none else slots j, queue, []⟩
  else
    match payload.data with
    | none => .error .invalidPayloadPointer
    | some info =>
      match lookupRegistered registry info.type with
      | some r => .ok ⟨slots, queue ++ [⟨r.deserializeFn, holderId, index, info⟩], []⟩
      | none => .error .unreachableCase

/-- The request a nonzero payload decodes to, when its tag is registered. -/
def requestFor (registry : List RegisteredType) (holderId : Nat)
    (index : Nat) (info : InternalFieldInfo) : Option DeserializeRequest :=
  (lookupRegistered registry info.type).map
    (fun r => ⟨r.deserializeFn, holderId, index, info⟩)

/-- The request decoded from one (slot index, payload) pair, `none` when the
payload is the empty marker or carries no data. -/
def decodedRequest (registry : List RegisteredType) (holderId : Nat) :
    Nat × StartupData → Option DeserializeRequest
  | (i, p) =>
    if p.raw_size = 0 then none
    else p.data.bind (fun info => requestFor registry holderId i info)

/-- The engine invokes `DeserializeNodeInternalFields` once per serialized
internal field, in slot-discovery order; this folds the embedded callback
over that sequence, threading holder slots and the request queue. -/
def deserializeSlots (registry : List RegisteredType) (holderId : Nat)
    (slots : Nat → Option Nat) (queue : List DeserializeRequest) :
    List (Nat × StartupData) → Except FatalKind DeserializeResult
  | [] => .ok ⟨slots, queue, []⟩
  | (i, p) :: rest =>
    match DeserializeNodeInternalFields registry holderId slots i p queue with
    | .error k => .error k
    | .ok r =>
      match deserializeSlots registry holderId r.slots r.queue rest with
      | .error k => .error k
      | .ok r2 => .ok ⟨r2.slots, r2.queue, r.syncInvocations ++ r2.syncInvocations⟩

/-- A `SnapshotableObject` as seen by the serialize callback: the object
reachable from the holder's `BaseObject::kSlot` internal field, exposing
`Serialize(index) -> InternalFieldInfo*`. -/
structure SnapshotableObjectModel where
  serialize : Nat → InternalFieldInfo

/-- Embeds `SerializeNodeContextInternalFields` (`node_snapshotable.cc:299-323`).
`holderKSlot` is the aligned pointer read from the holder's
`BaseObject::kSlot` internal field (`none` models a null pointer). A null
pointer yields the empty marker `StartupData{nullptr, 0}`; otherwise the
object's `Serialize(index)` result is returned with `raw_size` set to the
`length` field declared inside it. -/
def SerializeNodeContextInternalFields
    (holderKSlot : Option SnapshotableObjectModel) (index : Nat) : StartupData :=
  match holderKSlot with
  | none => ⟨none, 0⟩
  | some obj =>
    let info := obj.serialize index
    ⟨some info, info.length⟩

/-- One binding enumerated by `env->ForEachBindingData`: its `FastStringKey`
and the number of extra `creator->AddData` insertions its
`PrepareForSerialization` hook performs. -/
structure BindingInput where
  key : String
  prepareAdds : Nat
  deriving DecidableEq, Repr

/-- One entry pushed onto `EnvSerializeInfo::bindings`:
`{key.c_str(), i, index}`. -/
structure BindingRecord where
  name : String
  ordinal : Nat
  storeIndex : Nat
  deriving DecidableEq, Repr

/-- Embeds `IsSnapshotableType` (`node_snapshotable.cc:253-262`): membership
of the key in the `SERIALIZABLE_OBJECT_TYPES` list, which lives in
`node_snapshotable.h` and is therefore a parameter `keys`. -/
def IsSnapshotableType (keys : List String) (key : String) : Bool :=
  keys.contains key

/-- Embeds the loop body of `SerializeBindingData`
(`node_snapshotable.cc:325-351`). `storeSize` is the number of entries in the
creator's data store, so `creator->AddData` returns `storeSize` and grows the
store by one; `PrepareForSerialization` then grows it by the binding's
`prepareAdds`. `i` is the enumeration counter, `records` the accumulated
`info->bindings` vector. A non-snapshotable key hits `UNREACHABLE()`. -/
def SerializeBindingData (keys : List String) (bindings : List BindingInput)
    (storeSize : Nat) (i : Nat) (records : List BindingRecord) :
    Except FatalKind (Nat × List BindingRecord) :=
  match bindings with
  | [] => .ok (storeSize, records)
  | b :: rest =>
    if IsSnapshotableType keys b.key then
      SerializeBindingData keys rest (storeSize + 1 + b.prepareAdds) (i + 1)
        (records ++ [⟨b.key, i, storeSize⟩])
    else
      .error .unreachableCase

/-- Embeds `SnapshotData` (fields written by `SnapshotBuilder::Generate` and read by
`FormatBlob`): the blob bytes (`blob.data` with `blob.raw_size` equal to
their count), the isolate-data index list, and the streamed rendering of
`EnvSerializeInfo` (its `operator<<` lives outside the sampled source, so the
rendering is carried opaquely as a string). -/
structure SnapshotData where
  blob : List Int
  isolate_data_indices : List Nat
  env_info : String
  deriving DecidableEq, Repr

/-- Embeds `WriteVector` (`node_snapshotable.cc:40-45`): each element printed
with `std::to_string`, followed by `,`, except the last, followed by `\n`.
An empty vector prints nothing. -/
def WriteVector {α : Type} [ToString α] : List α → String
  | [] => ""
  | [v] => toString v ++ "\n"
  | v :: rest => toString v ++ "," ++ WriteVector rest

/-- The raw-string literal preceding the blob bytes in `FormatBlob`. -/
def blobHeader : String := "#include <cstddef>\n#include \"env.h\"\n#include \"node_main_instance.h\"\n#include \"v8.h\"\n\n// This file is generated by tools/snapshot. Do not edit.\n\nnamespace node \x7b\n\nstatic const char blob_data[] = \x7b\n"

/-- The literal between the blob bytes and the printed `blob.raw_size`. -/
def blobSizeSep : String := "\x7d;\n\nstatic const int blob_size = "

/-- The literal between the printed size and the isolate-data indices. -/
def dataHeader : String := ";\n\nSnapshotData snapshot_data \x7b\n  // -- blob begins --\n  \x7b blob_data, blob_size \x7d,\n  // -- blob ends --\n  // -- isolate_data_indices begins --\n  \x7b\n"

/-- The literal between the isolate-data indices and the streamed env info. -/
def envInfoSep : String := "\x7d,\n  // -- isolate_data_indices ends --\n  // -- env_info begins --\n"

/-- The closing literal of the generated artifact. -/
def blobFooter : String := "\n  // -- env_info ends --\n\x7d;\n\nconst SnapshotData* NodeMainInstance::GetEmbeddedSnapshotData() \x7b\n  return &snapshot_data;\n\x7d\n\x7d  // namespace node\n"

/-- Embeds `FormatBlob` (`node_snapshotable.cc:47-92`): the fixed literals
interleaved with the blob bytes, the blob size, the isolate-data indices and
the streamed env info, concatenated in source order. -/
def FormatBlob (data : SnapshotData) : String :=
  blobHeader ++ WriteVector data.blob ++ blobSizeSep
    ++ toString data.blob.length ++ dataHeader
    ++ WriteVector data.isolate_data_indices ++ envInfoSep
    ++ data.env_info ++ blobFooter

/-- Modelled from the spec: `NodeMainInstance::kNodeContextIndex`, the fixed
index at which a restorer locates the root context. The constant is declared
in `node_main_instance.h`, which is not part of the sampled source; its
concrete value is immaterial to the claims, which only compare the
creator-assigned index against it. -/
def kNodeContextIndex : Nat := 0

/-- The responses of the external collaborators consulted by one run of
`SnapshotBuilder::Generate`: each field is the outcome of one engine /
libuv / bootstrap interaction, in source order. -/
structure GenerateInput where
  isolateDataIndices : List Nat
  newContextCaught : Bool
  runBootstrappingCaught : Bool
  runBootstrappingHasResult : Bool
  buildSnapshot : Bool
  loadEnvironmentCaught : Bool
  loadEnvironmentHasResult : Bool
  spinEventLoopOutcome : Option Int
  spinCaught : Bool
  debugMkSnapshot : Bool
  envInfo : String
  contextIndex : Nat
  blob : List Int
  blobCanBeRehashed : Bool
  reqWrapQueueEmpty : Bool
  handleWrapQueueEmpty : Bool
  deriving DecidableEq, Repr

/-- Outcome of `SnapshotBuilder::Generate`: the diagnostics printed, in
order, and either the filled `SnapshotData` (normal return) or the fatal
condition that terminated the process. -/
structure GenerateOutcome where
  diags : List DiagEvent
  result : Except FatalKind SnapshotData
  deriving Repr

/-- Embeds `SnapshotBuilder::Generate` from the env-info serialization on
(`node_snapshotable.cc:184-222`): optional debug dump, `env->Serialize`,
`AddContext` with its `CHECK_EQ` against `kNodeContextIndex`, `CreateBlob`,
the `CanBeRehashed` check, the libuv-handle diagnostic, and the two
wrap-queue checks. -/
def generateTail (inp : GenerateInput) (d : List DiagEvent) : GenerateOutcome :=
  let d := d ++ (if inp.debugMkSnapshot then [DiagEvent.allBaseObjectsDump] else [])
  if inp.contextIndex ≠ kNodeContextIndex then ⟨d, .error .checkEqContextIndex⟩
  else if inp.blobCanBeRehashed = false then ⟨d, .error .checkRehash⟩
  else
    let d := d ++ (if inp.reqWrapQueueEmpty = false ∨ inp.handleWrapQueueEmpty = false
        ∨ inp.debugMkSnapshot then [DiagEvent.libuvHandleDump] else [])
    if inp.reqWrapQueueEmpty = false then ⟨d, .error .checkReqWrapQueue⟩
    else if inp.handleWrapQueueEmpty = false then ⟨d, .error .checkHandleWrapQueue⟩
    else ⟨d, .ok ⟨inp.blob, inp.isolateDataIndices, inp.envInfo⟩⟩

/-- Embeds the `--build-snapshot` block of `SnapshotBuilder::Generate`
(`node_snapshotable.cc:159-182`): `LoadEnvironment` under a `TryCatch`,
`ToLocalChecked`, the `CHECK_EQ(exit_code, 0)` after `SpinEventLoop`, and
the abort when the catch fired. -/
def buildPhase (inp : GenerateInput) (d : List DiagEvent) : GenerateOutcome :=
  if inp.buildSnapshot then
    let d := d ++ (if inp.loadEnvironmentCaught then [DiagEvent.caughtException] else [])
    if inp.loadEnvironmentHasResult = false then ⟨d, .error .toLocalCheckedCrash⟩
    else if inp.spinEventLoopOutcome.getD 1 ≠ 0 then ⟨d, .error .checkEqExitCode⟩
    else if inp.loadEnvironmentCaught ∨ inp.spinCaught then
      ⟨d ++ [DiagEvent.caughtException], .error .bootstrapAbort⟩
    else generateTail inp d
  else generateTail inp d

/-- Embeds `SnapshotBuilder::Generate` (`node_snapshotable.cc:94-223`):
context creation under a `TryCatch` (caught -> print + abort),
`RunBootstrapping` under a `TryCatch` (caught -> print, then
`ToLocalChecked` crashes on an empty result), then the build phase and the
tail. Fatal outcomes terminate the process, so no `SnapshotData` escapes
them. -/
def Generate (inp : GenerateInput) : GenerateOutcome :=
  if inp.newContextCaught then ⟨[DiagEvent.caughtException], .error .bootstrapAbort⟩
  else
    let d := if inp.runBootstrappingCaught then [DiagEvent.caughtException] else []
    if inp.runBootstrappingHasResult = false then ⟨d, .error .toLocalCheckedCrash⟩
    else buildPhase inp d

/-- A concrete builder run whose environment still holds an open request wrap
after blob creation (all earlier steps succeed). -/
def pendingInput : GenerateInput :=
  ⟨[], false, false, true, false, false, true, some 0, false, false, "", 0, [],
    true, false, true⟩

/-- A concrete builder run in which every external interaction succeeds. -/
def goodInput : GenerateInput :=
  ⟨[1, 2], false, false, true, false, false, true, some 0, false, false, "env",
    0, [3], true, true, true⟩

/-- A concrete successful builder run with `--build-snapshot` enabled. -/
def buildModeInput : GenerateInput :=
  ⟨[], false, false, true, true, false, true, some 0, false, false, "", 0, [],
    true, true, true⟩

/-- Unfolding of `DeserializeNodeInternalFields` on a nonzero payload whose
tag is registered: the matching request is appended to the queue. -/
theorem deserialize_registered_eq (registry : List RegisteredType)
    (holderId : Nat) (slots : Nat → Option Nat) (index : Nat)
    (payload : StartupData) (info : InternalFieldInfo) (r : RegisteredType)
    (queue : List DeserializeRequest) (h0 : payload.raw_size ≠ 0)
    (h1 : payload.data = some info)
    (h2 : lookupRegistered registry info.type = some r) :
    DeserializeNodeInternalFields registry holderId slots index payload queue =
      .ok ⟨slots, queue ++ [⟨r.deserializeFn, holderId, index, info⟩], []⟩ := by
  simp [DeserializeNodeInternalFields, h0, h1, h2]

/-- Folding the deserialize callback over a sequence of nonzero, registered
payloads leaves the holder slots untouched, performs no synchronous
invocation, and appends the decoded requests in sequence order. -/
theorem deserializeSlots_filterMap (registry : List RegisteredType)
    (holderId : Nat) (slots : Nat → Option Nat) :
    ∀ (items : List (Nat × StartupData)) (queue : List DeserializeRequest),
    (∀ ip ∈ items, ip.2.raw_size ≠ 0 ∧
      (decodedRequest registry holderId ip).isSome) →
    deserializeSlots registry holderId slots queue items =
      .ok ⟨slots, queue ++ items.filterMap (decodedRequest registry holderId), []⟩ := by
  intro items
  induction items with
  | nil => intro queue h; simp [deserializeSlots]
  | cons ip rest ih =>
    intro queue h
    obtain ⟨i, p⟩ := ip
    obtain ⟨hnz, hsome⟩ := h (i, p) (List.mem_cons_self _ _)
    rcases hp : p.data with _ | info
    · exfalso
      rw [decodedRequest] at hsome
      simp [hnz, hp] at hsome
    · rcases hl : lookupRegistered registry info.type with _ | r
      · exfalso
        rw [decodedRequest] at hsome
        simp [hnz, hp, requestFor, hl] at hsome
      · have hstep := deserialize_registered_eq registry holderId slots i p info r
          queue hnz hp hl
        have hrest := ih (queue ++ [⟨r.deserializeFn, holderId, i, info⟩])
          (fun x hx => h x (List.mem_cons_of_mem _ hx))
        simp only [deserializeSlots, hstep, hrest]
        simp [decodedRequest, hnz, hp, requestFor, hl]

/-- Running `SerializeBindingData` over all-snapshotable bindings succeeds and
appends, after the accumulated records, one record per binding whose
ordinals continue the enumeration counter and whose names are the binding
keys, in order. -/
theorem serializeBindingData_ok (keys : List String) :
    ∀ (bindings : List BindingInput) (storeSize i : Nat)
      (records : List BindingRecord),
    (∀ b ∈ bindings, IsSnapshotableType keys b.key = true) →
    ∃ s r, SerializeBindingData keys bindings storeSize i records =
        .ok (s, records ++ r) ∧
      r.map BindingRecord.ordinal = List.range' i bindings.length ∧
      r.map BindingRecord.name = bindings.map BindingInput.key := by
  intro bindings
  induction bindings with
  | nil =>
    intro storeSize i records h
    exact ⟨storeSize, [], by simp [SerializeBindingData], by simp [List.range'], by simp⟩
  | cons b rest ih =>
    intro storeSize i records h
    have hb := h b (List.mem_cons_self _ _)
    obtain ⟨s, r, heq, hord, hname⟩ := ih (storeSize + 1 + b.prepareAdds) (i + 1)
      (records ++ [⟨b.key, i, storeSize⟩])
      (fun x hx => h x (List.mem_cons_of_mem _ hx))
    refine ⟨s, ⟨b.key, i, storeSize⟩ :: r, ?_, ?_, ?_⟩
    · rw [SerializeBindingData]
      simp only [hb, if_true, heq, List.append_assoc, List.singleton_append]
    · simp [hord, List.range']
    · simp [hname]

/-- A normal return of the generate tail forces all its checks to have
passed and fixes the returned `SnapshotData`. -/
theorem generateTail_result_ok (inp : GenerateInput) (d : List DiagEvent)
    (data : SnapshotData) (h : (generateTail inp d).result = .ok data) :
    inp.contextIndex = kNodeContextIndex ∧ inp.blobCanBeRehashed = true ∧
    inp.reqWrapQueueEmpty = true ∧ inp.handleWrapQueueEmpty = true ∧
    data = ⟨inp.blob, inp.isolateDataIndices, inp.envInfo⟩ := by
  simp only [generateTail] at h
  split at h
  · simp at h
  · split at h
    · simp at h
    · split at h
      · simp at h
      · split at h
        · simp at h
        · simp_all

/-- A normal return of the build phase forces all tail checks to have passed
and fixes the returned `SnapshotData`. -/
theorem buildPhase_result_ok (inp : GenerateInput) (d : List DiagEvent)
    (data : SnapshotData) (h : (buildPhase inp d).result = .ok data) :
    inp.contextIndex = kNodeContextIndex ∧ inp.blobCanBeRehashed = true ∧
    inp.reqWrapQueueEmpty = true ∧ inp.handleWrapQueueEmpty = true ∧
    data = ⟨inp.blob, inp.isolateDataIndices, inp.envInfo⟩ := by
  simp only [buildPhase] at h
  split at h
  · split at h
    · simp at h
    · split at h
      · simp at h
      · split at h
        · simp at h
        · exact generateTail_result_ok _ _ _ h
  · exact generateTail_result_ok _ _ _ h

/-- A normal return of `Generate` forces all checks to have passed and fixes
the returned `SnapshotData`. -/
theorem generate_result_ok (inp : GenerateInput) (data : SnapshotData)
    (h : (Generate inp).result = .ok data) :
    inp.contextIndex = kNodeContextIndex ∧ inp.blobCanBeRehashed = true ∧
    inp.reqWrapQueueEmpty = true ∧ inp.handleWrapQueueEmpty = true ∧
    data = ⟨inp.blob, inp.isolateDataIndices, inp.envInfo⟩ := by
  simp only [Generate] at h
  split at h
  · simp at h
  · split at h
    · simp at h
    · exact buildPhase_result_ok _ _ _ h

/-- C1: for every holder, slot index and zero-length payload,
`DeserializeNodeInternalFields` sets that slot to the null internal-field
pointer (the explicit no-object sentinel), enqueues no reconstruction
request, and invokes no type-specific reconstruction function. -/
theorem deserialize_zero_payload_sets_null_sentinel
    (registry : List RegisteredType) (holderId : Nat) (slots : Nat → Option Nat)
    (index : Nat) (payload : StartupData) (queue : List DeserializeRequest)
    (h : payload.raw_size = 0) :
    DeserializeNodeInternalFields registry holderId slots index payload queue =
      .ok ⟨fun j => if j = index then none else slots j, queue, []⟩ := by
  simp [DeserializeNodeInternalFields, h]

/-- Witness for C1 at a concrete holder, slot and empty payload. -/
theorem deserialize_zero_payload_sets_null_sentinel_witness :
    DeserializeNodeInternalFields [] 7 (fun _ => some 5) 2 ⟨none, 0⟩ [] =
      .ok ⟨fun j => if j = 2 then none else some 5, [], []⟩ :=
  deserialize_zero_payload_sets_null_sentinel [] 7 (fun _ => some 5) 2
    ⟨none, 0⟩ [] rfl

/-- C2 counterexample: the claim that decoding a zero-length payload always
produces a slot state different from the untouched (no-`InternalFieldInfo`)
state fails at a holder whose slot already holds the null pointer — the
decode writes the null pointer back, leaving the state identical. -/
theorem zero_payload_not_distinct_from_absence :
    ¬ (∀ (slots : Nat → Option Nat) (index holderId : Nat)
        (registry : List RegisteredType) (queue : List DeserializeRequest)
        (r : DeserializeResult),
        DeserializeNodeInternalFields registry holderId slots index
            ⟨none, 0⟩ queue = .ok r →
        r.slots index ≠ slots index) := by
  intro h
  exact h (fun _ => none) 0 0 [] []
    ⟨fun j => if j = 0 then none else none, [], []⟩ rfl rfl

/-- C2 (amended): decoding a zero-length payload yields the null-pointer
no-object sentinel, the very state an untouched absent slot has — on a
holder whose slot is already null, the decode leaves the holder state,
the queue and the invocation trace exactly as if no `InternalFieldInfo`
had been present. -/
theorem zero_payload_decodes_to_absence_state
    (registry : List RegisteredType) (holderId : Nat) (slots : Nat → Option Nat)
    (index : Nat) (payload : StartupData) (queue : List DeserializeRequest)
    (h : payload.raw_size = 0) (habs : slots index = none) :
    DeserializeNodeInternalFields registry holderId slots index payload queue =
      .ok ⟨slots, queue, []⟩ := by
  have hfun : (fun j => if j = index then none else slots j) = slots := by
    funext j
    by_cases hj : j = index
    · subst hj; simp [habs]
    · simp [hj]
  simp [DeserializeNodeInternalFields, h, hfun]

/-- Witness for the amended C2 at a concrete already-null slot. -/
theorem zero_payload_decodes_to_absence_state_witness :
    DeserializeNodeInternalFields [] 3 (fun _ => none) 1 ⟨none, 0⟩ [] =
      .ok ⟨fun _ => none, [], []⟩ :=
  zero_payload_decodes_to_absence_state [] 3 (fun _ => none) 1 ⟨none, 0⟩ []
    rfl rfl

/-- C3: a nonzero payload whose type tag is not registered makes
`DeserializeNodeInternalFields` hit `UNREACHABLE()` — a fatal outcome, not a
normal return, slot skip or enqueue — and that fatal kind is distinct from
either bootstrap-script failure mode. -/
theorem deserialize_unknown_tag_aborts
    (registry : List RegisteredType) (holderId : Nat) (slots : Nat → Option Nat)
    (index : Nat) (payload : StartupData) (info : InternalFieldInfo)
    (queue : List DeserializeRequest)
    (h0 : payload.raw_size ≠ 0) (h1 : payload.data = some info)
    (h2 : lookupRegistered registry info.type = none) :
    DeserializeNodeInternalFields registry holderId slots index payload queue =
        .error .unreachableCase ∧
      FatalKind.unreachableCase ≠ FatalKind.bootstrapAbort ∧
      FatalKind.unreachableCase ≠ FatalKind.toLocalCheckedCrash := by
  refine ⟨?_, by decide, by decide⟩
  simp [DeserializeNodeInternalFields, h0, h1, h2]

/-- Witness for C3 at the unregistered tag `0xFFFFFFFF`. -/
theorem deserialize_unknown_tag_aborts_witness :
    DeserializeNodeInternalFields [⟨1, 10⟩] 0 (fun _ => none) 0
        ⟨some ⟨4294967295, 8, []⟩, 8⟩ [] = .error .unreachableCase ∧
      FatalKind.unreachableCase ≠ FatalKind.bootstrapAbort ∧
      FatalKind.unreachableCase ≠ FatalKind.toLocalCheckedCrash :=
  deserialize_unknown_tag_aborts [⟨1, 10⟩] 0 (fun _ => none) 0
    ⟨some ⟨4294967295, 8, []⟩, 8⟩ ⟨4294967295, 8, []⟩ [] (by decide) rfl (by decide)

/-- C4: a nonzero payload with a registered tag never triggers a synchronous
reconstruction — the holder slots are untouched and the invocation trace is
empty — and exactly one request, carrying the resolved `Deserialize`
function, the holder, the slot index and the payload, is appended at the
tail of the environment's queue; folded over a slot sequence, the queue
therefore grows in slot-discovery order. -/
theorem deserialize_registered_enqueues_in_order :
    (∀ (registry : List RegisteredType) (holderId : Nat)
        (slots : Nat → Option Nat) (index : Nat) (payload : StartupData)
        (info : InternalFieldInfo) (r : RegisteredType)
        (queue : List DeserializeRequest),
        payload.raw_size ≠ 0 → payload.data = some info →
        lookupRegistered registry info.type = some r →
        DeserializeNodeInternalFields registry holderId slots index payload
            queue =
          .ok ⟨slots, queue ++ [⟨r.deserializeFn, holderId, index, info⟩], []⟩) ∧
    (∀ (registry : List RegisteredType) (holderId : Nat)
        (slots : Nat → Option Nat) (queue : List DeserializeRequest)
        (items : List (Nat × StartupData)),
        (∀ ip ∈ items, ip.2.raw_size ≠ 0 ∧
          (decodedRequest registry holderId ip).isSome) →
        deserializeSlots registry holderId slots queue items =
          .ok ⟨slots,
            queue ++ items.filterMap (decodedRequest registry holderId), []⟩) :=
  ⟨fun registry holderId slots index payload info r queue h0 h1 h2 =>
      deserialize_registered_eq registry holderId slots index payload info r
        queue h0 h1 h2,
    fun registry holderId slots queue items h =>
      deserializeSlots_filterMap registry holderId slots items queue h⟩

/-- Witness for C4: a concrete registered payload is enqueued, not applied. -/
theorem deserialize_registered_enqueues_in_order_witness :
    DeserializeNodeInternalFields [⟨1, 10⟩] 5 (fun _ => none) 2
        ⟨some ⟨1, 12, [9]⟩, 12⟩ [] =
      .ok ⟨fun _ => none, [⟨10, 5, 2, ⟨1, 12, [9]⟩⟩], []⟩ :=
  deserialize_registered_enqueues_in_order.1 [⟨1, 10⟩] 5 (fun _ => none) 2
    ⟨some ⟨1, 12, [9]⟩, 12⟩ ⟨1, 12, [9]⟩ ⟨1, 10⟩ [] (by decide) rfl rfl

/-- C9: `SerializeNodeContextInternalFields` returns the empty marker (null
data, length 0) exactly when the holder's base-object slot pointer is null;
for a non-null pointer it returns the object's serialized
`InternalFieldInfo`, with the returned payload size equal to the `length`
field declared inside that info. -/
theorem serialize_empty_iff_null_slot
    (holderKSlot : Option SnapshotableObjectModel) (index : Nat) :
    (SerializeNodeContextInternalFields holderKSlot index =
        (⟨none, 0⟩ : StartupData) ↔ holderKSlot = none) ∧
    (∀ obj, holderKSlot = some obj →
      (SerializeNodeContextInternalFields holderKSlot index).data =
          some (obj.serialize index) ∧
      (SerializeNodeContextInternalFields holderKSlot index).raw_size =
          (obj.serialize index).length) := by
  constructor
  · cases holderKSlot with
    | none => simp [SerializeNodeContextInternalFields]
    | some obj => simp [SerializeNodeContextInternalFields]
  · rintro obj rfl
    simp [SerializeNodeContextInternalFields]

/-- Witness for C9 at a null slot and at a concrete snapshotable object. -/
theorem serialize_empty_iff_null_slot_witness :
    SerializeNodeContextInternalFields none 0 = (⟨none, 0⟩ : StartupData) ∧
    (SerializeNodeContextInternalFields
        (some ⟨fun _ => ⟨3, 5, [7]⟩⟩) 1).raw_size = 5 :=
  ⟨(serialize_empty_iff_null_slot none 0).1.mpr rfl,
    ((serialize_empty_iff_null_slot (some ⟨fun _ => ⟨3, 5, [7]⟩⟩) 1).2
      ⟨fun _ => ⟨3, 5, [7]⟩⟩ rfl).2⟩

/-- C5: an enumeration pass of `SerializeBindingData` over all-snapshotable
bindings succeeds and appends one `BindingRecord` per binding, in
enumeration order: the k-th record's name is the k-th binding's key and its
recorded ordinal is exactly k, so the ordinals are 0, 1, 2, ... — unique and
sequential. -/
theorem serializeBindingData_ordinals_sequential (keys : List String)
    (bindings : List BindingInput) (storeSize : Nat)
    (h : ∀ b ∈ bindings, IsSnapshotableType keys b.key = true) :
    ∃ s records,
      SerializeBindingData keys bindings storeSize 0 [] = .ok (s, records) ∧
      records.length = bindings.length ∧
      records.map BindingRecord.ordinal = List.range bindings.length ∧
      records.map BindingRecord.name = bindings.map BindingInput.key := by
  obtain ⟨s, r, heq, hord, hname⟩ :=
    serializeBindingData_ok keys bindings storeSize 0 [] h
  refine ⟨s, r, by simpa using heq, ?_, ?_, hname⟩
  · have hlen := congrArg List.length hord
    simpa using hlen
  · rw [hord, List.range_eq_range']

/-- Witness for C5: three bindings get ordinals 0, 1, 2 in enumeration
order. -/
theorem serializeBindingData_ordinals_sequential_witness :
    ∃ s records,
      SerializeBindingData ["fs", "v8"] [⟨"fs", 0⟩, ⟨"v8", 2⟩, ⟨"fs", 1⟩]
          5 0 [] = .ok (s, records) ∧
      records.length = 3 ∧
      records.map BindingRecord.ordinal = List.range 3 ∧
      records.map BindingRecord.name = ["fs", "v8", "fs"] :=
  serializeBindingData_ordinals_sequential ["fs", "v8"]
    [⟨"fs", 0⟩, ⟨"v8", 2⟩, ⟨"fs", 1⟩] 5 (by decide)

/-- C6: when every step up to blob creation succeeds but the environment
still holds an open request wrap or handle wrap, `SnapshotBuilder::Generate`
prints the outstanding-resource diagnostic as its final output and then
fails on the corresponding wrap-queue check — it never returns normally and
never hands back a `SnapshotData` artifact. -/
theorem generate_pending_work_dumps_then_aborts (inp : GenerateInput)
    (h1 : inp.newContextCaught = false)
    (h2 : inp.runBootstrappingHasResult = true)
    (h3 : inp.buildSnapshot = true → inp.loadEnvironmentHasResult = true ∧
      inp.spinEventLoopOutcome.getD 1 = 0 ∧ inp.loadEnvironmentCaught = false ∧
      inp.spinCaught = false)
    (h4 : inp.contextIndex = kNodeContextIndex)
    (h5 : inp.blobCanBeRehashed = true)
    (h6 : inp.reqWrapQueueEmpty = false ∨ inp.handleWrapQueueEmpty = false) :
    ((Generate inp).result = .error .checkReqWrapQueue ∨
      (Generate inp).result = .error .checkHandleWrapQueue) ∧
    (Generate inp).diags.getLast? = some .libuvHandleDump ∧
    ∀ data, (Generate inp).result ≠ .ok data := by
  have htail : ∀ d, ((generateTail inp d).result = .error .checkReqWrapQueue ∨
      (generateTail inp d).result = .error .checkHandleWrapQueue) ∧
      (generateTail inp d).diags.getLast? = some .libuvHandleDump ∧
      ∀ data, (generateTail inp d).result ≠ .ok data := by
    intro d
    unfold generateTail
    cases hreq : inp.reqWrapQueueEmpty with
    | false => simp [h4, h5, hreq, List.getLast?_concat]
    | true =>
      have hhw : inp.handleWrapQueueEmpty = false := by
        rcases h6 with h6 | h6
        · rw [hreq] at h6; exact absurd h6 (by decide)
        · exact h6
      simp [h4, h5, hreq, hhw, List.getLast?_concat]
  have hgen : Generate inp = buildPhase inp
      (if inp.runBootstrappingCaught then [DiagEvent.caughtException] else []) := by
    simp [Generate, h1, h2]
  rw [hgen]
  cases hbs : inp.buildSnapshot with
  | false =>
    rw [buildPhase, hbs]
    simp only [Bool.false_eq_true, if_false]
    exact htail _
  | true =>
    obtain ⟨ha, hb, hc, hd2⟩ := h3 hbs
    rw [buildPhase, hbs]
    simp only [if_true, ha, hb, hc, hd2]
    simp only [Bool.false_eq_true, if_false, ne_eq, not_true_eq_false,
      or_self, List.append_nil]
    exact htail _

/-- Witness for C6: a concrete run with an open request wrap fails on the
request-wrap check right after dumping the libuv handle diagnostic. -/
theorem generate_pending_work_dumps_then_aborts_witness :
    ((Generate pendingInput).result = .error .checkReqWrapQueue ∨
      (Generate pendingInput).result = .error .checkHandleWrapQueue) ∧
    (Generate pendingInput).diags.getLast? = some .libuvHandleDump ∧
    ∀ data, (Generate pendingInput).result ≠ .ok data :=
  generate_pending_work_dumps_then_aborts pendingInput rfl rfl (by decide)
    rfl rfl (Or.inl rfl)

/-- C7: `SnapshotBuilder::Generate` never completes with a blob that cannot
be safely re-hashed — every normally returned `SnapshotData` comes from a
run whose created blob passed the `CanBeRehashed` check, and carries exactly
that blob. -/
theorem generate_artifact_blob_rehashable (inp : GenerateInput)
    (data : SnapshotData) (h : (Generate inp).result = .ok data) :
    inp.blobCanBeRehashed = true ∧ data.blob = inp.blob := by
  have := generate_result_ok inp data h
  exact ⟨this.2.1, by rw [this.2.2.2.2]⟩

/-- Witness for C7 at a concrete fully-successful run. -/
theorem generate_artifact_blob_rehashable_witness :
    goodInput.blobCanBeRehashed = true ∧
      (⟨[3], [1, 2], "env"⟩ : SnapshotData).blob = goodInput.blob :=
  generate_artifact_blob_rehashable goodInput ⟨[3], [1, 2], "env"⟩ rfl

/-- C10: in every run of `SnapshotBuilder::Generate` that returns normally,
the root context was added at exactly `NodeMainInstance::kNodeContextIndex`;
a creator-assigned index different from that constant can only end in a
fatal check, never in a returned artifact. -/
theorem generate_root_context_at_fixed_index (inp : GenerateInput)
    (data : SnapshotData) (h : (Generate inp).result = .ok data) :
    inp.contextIndex = kNodeContextIndex :=
  (generate_result_ok inp data h).1

/-- Witness for C10 at a concrete successful `--build-snapshot` run. -/
theorem generate_root_context_at_fixed_index_witness :
    buildModeInput.contextIndex = kNodeContextIndex :=
  generate_root_context_at_fixed_index buildModeInput ⟨[], [], ""⟩ rfl

/-- C8: `FormatBlob` is a deterministic pure function of the blob bytes, the
isolate-data indices and the env info — equal inputs give byte-identical
artifacts — and the artifact embeds the rendering of every blob byte in
order (the `WriteVector` output) together with a size constant equal to the
blob's length. -/
theorem formatBlob_deterministic_and_faithful (d1 d2 : SnapshotData)
    (hb : d1.blob = d2.blob)
    (hi : d1.isolate_data_indices = d2.isolate_data_indices)
    (he : d1.env_info = d2.env_info) :
    FormatBlob d1 = FormatBlob d2 ∧
    (∃ p q, FormatBlob d1 = p ++ WriteVector d1.blob ++ q) ∧
    (∃ p q, FormatBlob d1 =
      p ++ ("static const int blob_size = " ++ toString d1.blob.length ++ ";")
        ++ q) := by
  refine ⟨?_, ?_, ?_⟩
  · cases d1; cases d2
    simp only at hb hi he
    rw [hb, hi, he]
  · refine ⟨blobHeader, blobSizeSep ++ toString d1.blob.length ++ dataHeader
      ++ WriteVector d1.isolate_data_indices ++ envInfoSep ++ d1.env_info
      ++ blobFooter, ?_⟩
    simp [FormatBlob, String.append_assoc]
  · refine ⟨blobHeader ++ WriteVector d1.blob ++ "\x7d;\n\n",
      "\n\nSnapshotData snapshot_data \x7b\n  // -- blob begins --\n  \x7b blob_data, blob_size \x7d,\n  // -- blob ends --\n  // -- isolate_data_indices begins --\n  \x7b\n"
        ++ WriteVector d1.isolate_data_indices ++ envInfoSep ++ d1.env_info
        ++ blobFooter, ?_⟩
    have e1 : blobSizeSep = "\x7d;\n\n" ++ "static const int blob_size = " := rfl
    have e2 : dataHeader = ";"
        ++ "\n\nSnapshotData snapshot_data \x7b\n  // -- blob begins --\n  \x7b blob_data, blob_size \x7d,\n  // -- blob ends --\n  // -- isolate_data_indices begins --\n  \x7b\n" := rfl
    rw [FormatBlob, e1, e2]
    simp only [String.append_assoc]

/-- Witness for C8 at a concrete `SnapshotData`. -/
theorem formatBlob_deterministic_and_faithful_witness :
    FormatBlob ⟨[1, 2], [0], "x"⟩ = FormatBlob ⟨[1, 2], [0], "x"⟩ ∧
    (∃ p q, FormatBlob ⟨[1, 2], [0], "x"⟩ =
      p ++ WriteVector (⟨[1, 2], [0], "x"⟩ : SnapshotData).blob ++ q) ∧
    (∃ p q, FormatBlob ⟨[1, 2], [0], "x"⟩ =
      p ++ ("static const int blob_size = "
        ++ toString (⟨[1, 2], [0], "x"⟩ : SnapshotData).blob.length ++ ";")
        ++ q) :=
  formatBlob_deterministic_and_faithful ⟨[1, 2], [0], "x"⟩ ⟨[1, 2], [0], "x"⟩
    rfl rfl rfl

end NodeSnapshot
